import Mathlib

/-!
Verification of the wagon-wheel geometry and sector-aggregation core of the
cricket batting dashboard (`src/components/wagon_wheel.py`).

The embedding mirrors the Python source: a pandas DataFrame is a `Frame`
(a list of rows plus per-column presence flags), missing scalar values
(`None` / `NaN`) are `Option`, Python's float `%` on a positive modulus is
`qmod360`, and the matplotlib drawing calls are recorded as structured data
(line angles, label angles, the per-sector stats placed into the label).
-/

namespace WagonWheel

/-- One row of the raw event table.  `Option` encodes a missing value
(`None` / `NaN`) for that row. -/
structure ShotEvent where
  runs_scored : ℕ
  shot_angle : Option ℚ
  shot_magnitude : Option ℚ
  dismissalType : Option String
  is_out : Bool
deriving Repr, DecidableEq

/-- A DataFrame: rows together with column-presence flags (`'c' in df.columns`). -/
structure Frame where
  rows : List ShotEvent
  hasShotAngle : Bool
  hasRunsScored : Bool
  hasIsOut : Bool
  hasDismissalType : Bool
deriving Repr, DecidableEq

/-- Python's `x % 360` on reals: result in `[0, 360)`. -/
def qmod360 (x : ℚ) : ℚ := x - 360 * (⌊x / 360⌋ : ℤ)

/-- `get_adjusted_angle(shot_angle, is_rhb)` from the source: `None` propagates,
otherwise `(90 - shot_angle) % 360`; the handedness argument is ignored. -/
def get_adjusted_angle (shot_angle : Option ℚ) (is_rhb : Bool) : Option ℚ :=
  match shot_angle with
  | none => none
  | some a => some (qmod360 (90 - a))

/-- `get_scoring_area_display_angle(shot_angle, is_rhb)` from the source:
base `(90 - shot_angle) % 360`; for a left-handed batter (`not is_rhb`)
shift a further `(base + 90) % 360`. -/
def get_scoring_area_display_angle (shot_angle : Option ℚ) (is_rhb : Bool) : Option ℚ :=
  match shot_angle with
  | none => none
  | some a =>
    let base := qmod360 (90 - a)
    some (if is_rhb then base else qmod360 (base + 90))

/-- `row.get('shot_angle')` seen through the column flag: if the column is
absent every row reads as missing. -/
def rowAngle (df : Frame) (r : ShotEvent) : Option ℚ :=
  if df.hasShotAngle then r.shot_angle else none

/-- `row.get('shot_magnitude')` seen through the column flag. -/
def rowMagnitude (df : Frame) (r : ShotEvent) : Option ℚ :=
  if df.hasShotAngle then r.shot_magnitude else none

/-- Basic range facts about `qmod360`. -/
theorem qmod360_nonneg (x : ℚ) : 0 ≤ qmod360 x := by
  have h := Int.floor_le (x / 360)
  have : (⌊x / 360⌋ : ℚ) * 360 ≤ x := by
    have h360 : (0:ℚ) < 360 := by norm_num
    calc (⌊x / 360⌋ : ℚ) * 360 ≤ (x / 360) * 360 := by
          exact mul_le_mul_of_nonneg_right h (by norm_num)
      _ = x := by field_simp
  unfold qmod360
  linarith

theorem qmod360_lt (x : ℚ) : qmod360 x < 360 := by
  have h := Int.lt_floor_add_one (x / 360)
  have : x < ((⌊x / 360⌋ : ℚ) + 1) * 360 := by
    have h360 : (0:ℚ) < 360 := by norm_num
    calc x = (x / 360) * 360 := by field_simp
      _ < ((⌊x / 360⌋ : ℚ) + 1) * 360 := by
          exact mul_lt_mul_of_pos_right h h360
  unfold qmod360
  linarith

theorem qmod360_eq_self (x : ℚ) (h0 : 0 ≤ x) (h1 : x < 360) : qmod360 x = x := by
  unfold qmod360
  have : ⌊x / 360⌋ = 0 := by
    apply Int.floor_eq_zero_iff.mpr
    constructor
    · positivity
    · rw [div_lt_one (by norm_num : (0:ℚ) < 360)]; exact h1
  rw [this]
  push_cast
  ring

/-- The 8 fixed sector ranges of `render_scoring_areas_wheel`:
`(0,45), (45,90), ..., (315,360)`. -/
def sector_ranges : List (ℚ × ℚ) :=
  [(0, 45), (45, 90), (90, 135), (135, 180), (180, 225), (225, 270), (270, 315), (315, 360)]

/-- The row-selection test of the sector filter.  Pandas comparisons against
`NaN` are false, so a row with a missing angle passes no filter.  The final
sector (`end_angle == 360`) uses `>= start and <= 360`; the others use
`>= start and < end`. -/
def angleInRange (s e : ℚ) (oa : Option ℚ) : Bool :=
  match oa with
  | none => false
  | some a =>
    if e = 360 then decide (s ≤ a) && decide (a ≤ 360)
    else decide (s ≤ a) && decide (a < e)

/-- The per-sector derived statistics placed into the sector's label. -/
structure SectorStats where
  balls : ℕ
  runs : ℕ
  outs : ℕ
  average : Option ℚ
  sr : ℚ
  pct_runs : ℚ
deriving Repr, DecidableEq

/-- `total_runs_all = df['runs_scored'].sum() if 'runs_scored' in df.columns else 0`. -/
def total_runs_all (df : Frame) : ℕ :=
  if df.hasRunsScored then (df.rows.map (·.runs_scored)).sum else 0

/-- The rows of `df` falling in the sector `(s, e)`
(`sector_df` in the source). -/
def sector_df (df : Frame) (s e : ℚ) : List ShotEvent :=
  df.rows.filter (fun r => angleInRange s e (rowAngle df r))

/-- The statistics block of one iteration of the sector loop.  `none` models
the `KeyError` raised by `sector_df['runs_scored']` when the runs column is
absent while the sector is non-empty. -/
def computeSectorStats (df : Frame) (rng : ℚ × ℚ) : Option SectorStats :=
  let sdf := sector_df df rng.1 rng.2
  let balls := sdf.length
  match (if balls > 0 then
           (if df.hasRunsScored then some ((sdf.map (·.runs_scored)).sum) else none)
         else some 0) with
  | none => none
  | some runs =>
    let outs : ℕ :=
      if balls > 0 then
        if df.hasIsOut then sdf.countP (·.is_out)
        else if df.hasDismissalType then
          sdf.countP (fun r => r.dismissalType.isSome)
            - sdf.countP (fun r => r.dismissalType == some "")
        else 0
      else 0
    let total := total_runs_all df
    some { balls := balls
           runs := runs
           outs := outs
           average := if outs > 0 then some ((runs : ℚ) / (outs : ℚ)) else none
           sr := if balls > 0 then (runs : ℚ) / (balls : ℚ) * 100 else 0
           pct_runs := if total > 0 then (runs : ℚ) / (total : ℚ) * 100 else 0 }

/-- What one iteration of the sector loop draws: the display angles of the
two boundary radial lines, and the label (display angle of the sector's
domain-frame midpoint, carrying the stats text). -/
structure SectorDraw where
  lines : List ℚ
  labelAngle : Option ℚ
  stats : SectorStats
deriving Repr, DecidableEq

/-- One iteration of the sector loop: compute the stats, draw the two
boundary lines (an end angle of 360 is drawn as 0; a `None` display angle
would be skipped), place the label at the transformed domain midpoint. -/
def renderSector (df : Frame) (is_rhb : Bool) (rng : ℚ × ℚ) : Option SectorDraw :=
  (computeSectorStats df rng).map (fun stats =>
    let mid := (rng.1 + rng.2) / 2
    { lines := [rng.1, rng.2].filterMap (fun angle =>
        get_scoring_area_display_angle (some (if angle < 360 then angle else 0)) is_rhb)
      labelAngle := get_scoring_area_display_angle (some mid) is_rhb
      stats := stats })

/-- Collect a list of optional results, failing if any failed (the loop
raises on the first error; which iteration raised does not matter here). -/
def optionSequence {α : Type} : List (Option α) → Option (List α)
  | [] => some []
  | none :: _ => none
  | some x :: rest =>
    match optionSequence rest with
    | some xs => some (x :: xs)
    | none => none

/-- `render_scoring_areas_wheel(df, is_rhb)`: the sequence of per-sector
drawing records, in sector order.  `none` models a raised `KeyError`:
the sector filter reads `df['shot_angle']` unconditionally, and a
non-empty sector reads `sector_df['runs_scored']`. -/
def render_scoring_areas_wheel (df : Frame) (is_rhb : Bool) : Option (List SectorDraw) :=
  if df.hasShotAngle then optionSequence (sector_ranges.map (renderSector df is_rhb)) else none

/-- The caught-dismissal filter of `render_caught_out_wheel`:
`df['dismissalType'].isin(['Caught', 'CaughtSub', 'Caught Out'])`. -/
def caught_df (df : Frame) : List ShotEvent :=
  df.rows.filter (fun r =>
    r.dismissalType == some "Caught" || r.dismissalType == some "CaughtSub"
      || r.dismissalType == some "Caught Out")

/-- The magnitude normalization of `render_caught_out_wheel`
(`max_magnitude = 167`): `1.0` at or beyond 167, else `magnitude / 167`. -/
def normalized_mag (m : ℚ) : ℚ :=
  if 167 ≤ m then 1 else m / 167

/-- What `render_caught_out_wheel` draws: one `(display angle, radius)` pair
per radial line, and the qualifying-dismissal count shown in the title. -/
structure CaughtRender where
  lines : List (ℚ × ℚ)
  title_count : ℕ
deriving Repr, DecidableEq

/-- `render_caught_out_wheel(df, is_rhb)`: a line for each caught event with
both `shot_angle` and `shot_magnitude` present, the title reporting the size
of the whole caught filter.  `none` models the `KeyError` raised by
`df['dismissalType']` when that column is absent. -/
def render_caught_out_wheel (df : Frame) (is_rhb : Bool) : Option CaughtRender :=
  if df.hasDismissalType then
    let cdf := caught_df df
    some { lines := cdf.filterMap (fun r =>
             match rowAngle df r, rowMagnitude df r with
             | some a, some m =>
               match get_adjusted_angle (some a) is_rhb with
               | some ad => some (ad, normalized_mag m)
               | none => none
             | _, _ => none)
           title_count := cdf.length }
  else none

/-! ### Helper lemmas -/

/-- Every element of a successful `optionSequence` appears (wrapped in
`some`) in the input list. -/
theorem mem_of_optionSequence {α : Type} :
    ∀ (l : List (Option α)) (res : List α), optionSequence l = some res →
      ∀ b ∈ res, some b ∈ l := by
  intro l
  induction l with
  | nil =>
    intro res h b hb
    simp only [optionSequence, Option.some.injEq] at h
    subst h
    simp at hb
  | cons o t ih =>
    intro res h b hb
    cases o with
    | none => simp [optionSequence] at h
    | some x =>
      cases ht : optionSequence t with
      | none => rw [optionSequence, ht] at h; cases h
      | some xs =>
        rw [optionSequence, ht] at h
        simp only [Option.some.injEq] at h
        subst h
        rcases List.mem_cons.mp hb with rfl | hb
        · exact List.mem_cons_self _ _
        · exact List.mem_cons_of_mem _ (ih xs ht b hb)

/-- A successful draw of the scoring-areas wheel is the rendering of one of
the 8 sector ranges. -/
theorem render_scoring_mem (df : Frame) (is_rhb : Bool) (draws : List SectorDraw)
    (h : render_scoring_areas_wheel df is_rhb = some draws) :
    ∀ d ∈ draws, ∃ rng ∈ sector_ranges, renderSector df is_rhb rng = some d := by
  unfold render_scoring_areas_wheel at h
  by_cases hcol : df.hasShotAngle = true
  · rw [if_pos hcol] at h
    intro d hd
    have hmem := mem_of_optionSequence _ _ h d hd
    obtain ⟨rng, hrng, hf⟩ := List.mem_map.mp hmem
    exact ⟨rng, hrng, hf⟩
  · rw [if_neg hcol] at h
    cases h

/-- A sector's drawing record carries exactly the stats computed for it. -/
theorem renderSector_stats (df : Frame) (is_rhb : Bool) (rng : ℚ × ℚ) (d : SectorDraw)
    (h : renderSector df is_rhb rng = some d) : computeSectorStats df rng = some d.stats := by
  unfold renderSector at h
  cases hc : computeSectorStats df rng with
  | none => rw [hc] at h; cases h
  | some s =>
    rw [hc] at h
    simp only [Option.map_some'] at h
    injection h with h2
    subst h2
    rfl

/-- Counting the present minus counting the empty-string gives counting the
present-and-non-empty (the fallback outs count). -/
theorem countP_dismissal_sub (l : List ShotEvent) :
    l.countP (fun r => r.dismissalType.isSome)
        - l.countP (fun r => r.dismissalType == some "")
      = l.countP (fun r => r.dismissalType.isSome && !(r.dismissalType == some "")) := by
  induction l with
  | nil => rfl
  | cons a t ih =>
    have hle : t.countP (fun r => r.dismissalType == some "")
        ≤ t.countP (fun r => r.dismissalType.isSome) := by
      apply List.countP_mono_left
      intro r _ hr
      cases hd : r.dismissalType with
      | none => rw [hd] at hr; simp at hr
      | some s => simp [hd]
    rw [List.countP_cons, List.countP_cons, List.countP_cons]
    cases hd : a.dismissalType with
    | none =>
      simp only [hd, Option.isSome_none, Bool.false_and, if_neg, Bool.false_eq_true,
        not_false_iff, Nat.add_zero]
      have hne : ((none : Option String) == some "") = false := rfl
      simp only [hne, if_neg, Bool.false_eq_true, not_false_iff, Nat.add_zero]
      omega
    | some s =>
      by_cases hs : s = ""
      · subst hs
        simp only [hd, Option.isSome_some, beq_self_eq_true, Bool.not_true, Bool.and_false,
          if_pos, if_neg, Bool.false_eq_true, not_false_iff, Nat.add_zero]
        omega
      · have hne : ((some s : Option String) == some "") = false := by
          simp [hs]
        simp only [hd, Option.isSome_some, hne, Bool.not_false, Bool.and_true, if_pos,
          if_neg, Bool.false_eq_true, not_false_iff, Nat.add_zero]
        omega

/-! ### Concrete fixtures used by witnesses and counterexamples -/

/-- An empty event table with every column present. -/
def frameEmpty : Frame := ⟨[], true, true, true, true⟩

/-- The all-zero placeholder stats block. -/
def emptyStats : SectorStats := ⟨0, 0, 0, none, 0, 0⟩

/-- Two rows: a 4 hit at angle 10, and a 6 with no tracked shot angle. -/
def frameNoAngle : Frame :=
  ⟨[⟨4, some 10, none, none, false⟩, ⟨6, none, none, none, false⟩], true, true, true, true⟩

/-- Three rows in sector `[0,45)` with no `is_out` column: one real
dismissal tag, one empty-string tag, one missing tag. -/
def frameFallback : Frame :=
  ⟨[⟨1, some 10, none, some "Bowled", false⟩, ⟨2, some 20, none, some "", false⟩,
    ⟨3, some 30, none, none, false⟩], true, true, false, true⟩

/-- Two caught dismissals, only one of which has a tracked magnitude. -/
def frameCaught : Frame :=
  ⟨[⟨0, some 30, some 100, some "Caught", true⟩, ⟨0, some 30, none, some "CaughtSub", true⟩],
    true, true, true, true⟩

/-- The stats of the `[0,45)` sector of `frameFallback`: 3 balls, 6 runs,
one inferred out (only the `"Bowled"` tag counts). -/
def statsFallback : SectorStats := ⟨3, 6, 1, some 6, 200, 100⟩

/-- The scoring-areas wheel drawn for `frameEmpty`, right-handed. -/
def drawsEmptyRhb : List SectorDraw :=
  [⟨[90, 45], some (135/2), emptyStats⟩, ⟨[45, 0], some (45/2), emptyStats⟩,
   ⟨[0, 315], some (675/2), emptyStats⟩, ⟨[315, 270], some (585/2), emptyStats⟩,
   ⟨[270, 225], some (495/2), emptyStats⟩, ⟨[225, 180], some (405/2), emptyStats⟩,
   ⟨[180, 135], some (315/2), emptyStats⟩, ⟨[135, 90], some (225/2), emptyStats⟩]

/-- The scoring-areas wheel drawn for `frameEmpty`, left-handed. -/
def drawsEmptyLhb : List SectorDraw :=
  [⟨[180, 135], some (315/2), emptyStats⟩, ⟨[135, 90], some (225/2), emptyStats⟩,
   ⟨[90, 45], some (135/2), emptyStats⟩, ⟨[45, 0], some (45/2), emptyStats⟩,
   ⟨[0, 315], some (675/2), emptyStats⟩, ⟨[315, 270], some (585/2), emptyStats⟩,
   ⟨[270, 225], some (495/2), emptyStats⟩, ⟨[225, 180], some (405/2), emptyStats⟩]

/-- The scoring-areas wheel drawn for `frameFallback`, right-handed. -/
def drawsFallback : List SectorDraw :=
  [⟨[90, 45], some (135/2), statsFallback⟩, ⟨[45, 0], some (45/2), emptyStats⟩,
   ⟨[0, 315], some (675/2), emptyStats⟩, ⟨[315, 270], some (585/2), emptyStats⟩,
   ⟨[270, 225], some (495/2), emptyStats⟩, ⟨[225, 180], some (405/2), emptyStats⟩,
   ⟨[180, 135], some (315/2), emptyStats⟩, ⟨[135, 90], some (225/2), emptyStats⟩]

/-- Evaluation: the scoring-areas wheel on the empty table, right-handed. -/
theorem render_frameEmpty_rhb :
    render_scoring_areas_wheel frameEmpty true = some drawsEmptyRhb := by
  norm_num [render_scoring_areas_wheel, sector_ranges, optionSequence, renderSector,
    computeSectorStats, sector_df, angleInRange, total_runs_all, frameEmpty,
    get_scoring_area_display_angle, List.filterMap_cons, qmod360, drawsEmptyRhb, emptyStats]

/-- Evaluation: the scoring-areas wheel on the empty table, left-handed. -/
theorem render_frameEmpty_lhb :
    render_scoring_areas_wheel frameEmpty false = some drawsEmptyLhb := by
  norm_num [render_scoring_areas_wheel, sector_ranges, optionSequence, renderSector,
    computeSectorStats, sector_df, angleInRange, total_runs_all, frameEmpty,
    get_scoring_area_display_angle, List.filterMap_cons, qmod360, drawsEmptyLhb, emptyStats]

/-- Evaluation: the scoring-areas wheel on `frameFallback`, right-handed. -/
theorem render_frameFallback_rhb :
    render_scoring_areas_wheel frameFallback true = some drawsFallback := by
  norm_num [render_scoring_areas_wheel, sector_ranges, optionSequence, renderSector,
    computeSectorStats, sector_df, angleInRange, total_runs_all, frameFallback, rowAngle,
    get_scoring_area_display_angle, List.filterMap_cons, qmod360, drawsFallback, emptyStats,
    statsFallback, List.filter_cons, List.countP_cons]
  rw [if_neg (show ¬("Bowled" = "") by decide)]
  norm_num

/-- Evaluation: the caught-out wheel on `frameCaught`, right-handed. -/
theorem render_frameCaught_rhb :
    render_caught_out_wheel frameCaught true = some ⟨[(60, 100/167)], 2⟩ := by
  norm_num [render_caught_out_wheel, caught_df, frameCaught, rowAngle, rowMagnitude,
    get_adjusted_angle, normalized_mag, qmod360, List.filter_cons, List.filterMap_cons]

/-- Inversion of a successful `computeSectorStats`: every field of the stats
block in terms of the sector's filtered rows. -/
theorem computeSectorStats_spec (df : Frame) (rng : ℚ × ℚ) (stats : SectorStats)
    (h : computeSectorStats df rng = some stats) :
    stats.balls = (sector_df df rng.1 rng.2).length ∧
    stats.runs = (if 0 < (sector_df df rng.1 rng.2).length
                  then ((sector_df df rng.1 rng.2).map (·.runs_scored)).sum else 0) ∧
    stats.outs = (if 0 < (sector_df df rng.1 rng.2).length then
                    (if df.hasIsOut then (sector_df df rng.1 rng.2).countP (·.is_out)
                     else if df.hasDismissalType then
                       (sector_df df rng.1 rng.2).countP (fun r => r.dismissalType.isSome)
                         - (sector_df df rng.1 rng.2).countP (fun r => r.dismissalType == some "")
                     else 0)
                  else 0) ∧
    stats.average = (if 0 < stats.outs
                     then some ((stats.runs : ℚ) / (stats.outs : ℚ)) else none) ∧
    stats.sr = (if 0 < stats.balls
                then (stats.runs : ℚ) / (stats.balls : ℚ) * 100 else 0) ∧
    stats.pct_runs = (if 0 < total_runs_all df
                      then (stats.runs : ℚ) / (total_runs_all df : ℚ) * 100 else 0) := by
  unfold computeSectorStats at h
  by_cases hb : 0 < (sector_df df rng.1 rng.2).length
  · by_cases hr : df.hasRunsScored = true
    · simp only [hb, hr, if_pos, if_true, gt_iff_lt] at h
      simp only [Option.some.injEq] at h
      subst h
      simp [hb]
    · simp only [hb, hr, gt_iff_lt, if_true, if_false, Bool.false_eq_true] at h
      exact Option.noConfusion h
  · simp only [hb, gt_iff_lt, if_false] at h
    simp only [Option.some.injEq] at h
    subst h
    simp [hb]

/-! ### Claims -/

/-- C1: for every domain angle `a` in `[0,360)` and every handedness,
`get_adjusted_angle` returns `(90 - a) mod 360`, and the handedness
argument has no effect on the output. -/
theorem C1_adjusted_angle_ignores_handedness (a : ℚ) (h0 : 0 ≤ a) (h1 : a < 360)
    (h h2 : Bool) :
    get_adjusted_angle (some a) h = some (qmod360 (90 - a)) ∧
    get_adjusted_angle (some a) h = get_adjusted_angle (some a) h2 :=
  ⟨rfl, rfl⟩

/-- Witness for C1 at `a = 5`: both handedness values give `(90 - 5) mod 360 = 85`. -/
theorem C1_adjusted_angle_ignores_handedness_witness :
    get_adjusted_angle (some 5) true = some (qmod360 (90 - 5)) ∧
    get_adjusted_angle (some 5) true = get_adjusted_angle (some 5) false :=
  C1_adjusted_angle_ignores_handedness 5 (by norm_num) (by norm_num) true false

/-- C2: for every present domain angle `a`, `get_scoring_area_display_angle`
returns `(90 - a) mod 360` for right-handed and `((90 - a) mod 360 + 90) mod 360`
for left-handed; in particular `0 ↦ 90` (right) and `0 ↦ 180` (left). -/
theorem C2_sector_display_angle_split (a : ℚ) :
    get_scoring_area_display_angle (some a) true = some (qmod360 (90 - a)) ∧
    get_scoring_area_display_angle (some a) false = some (qmod360 (qmod360 (90 - a) + 90)) ∧
    get_scoring_area_display_angle (some 0) true = some 90 ∧
    get_scoring_area_display_angle (some 0) false = some 180 := by
  refine ⟨rfl, rfl, ?_, ?_⟩ <;> norm_num [get_scoring_area_display_angle, qmod360]

/-- C3: every angle in the closed interval `[0,360]` lies in exactly one of
the 8 fixed domain-frame sectors, under the membership rules of
`render_scoring_areas_wheel` (half-open, except the final sector closed
at 360). -/
theorem C3_sector_partition (a : ℚ) (h0 : 0 ≤ a) (h1 : a ≤ 360) :
    sector_ranges.countP (fun p => angleInRange p.1 p.2 (some a)) = 1 := by
  simp only [sector_ranges, List.countP_cons, List.countP_nil, angleInRange]
  norm_num
  rcases lt_or_le a 45 with h | h45
  · rw [if_neg (by rintro ⟨x, y⟩; linarith),
      if_neg (by rintro ⟨x, y⟩; linarith),
      if_neg (by rintro ⟨x, y⟩; linarith),
      if_neg (by rintro ⟨x, y⟩; linarith),
      if_neg (by rintro ⟨x, y⟩; linarith),
      if_neg (by rintro ⟨x, y⟩; linarith),
      if_neg (by rintro ⟨x, y⟩; linarith),
      if_pos ⟨h0, h⟩]
  · rcases lt_or_le a 90 with h | h90
    · rw [if_neg (by rintro ⟨x, y⟩; linarith),
        if_neg (by rintro ⟨x, y⟩; linarith),
        if_neg (by rintro ⟨x, y⟩; linarith),
        if_neg (by rintro ⟨x, y⟩; linarith),
        if_neg (by rintro ⟨x, y⟩; linarith),
        if_neg (by rintro ⟨x, y⟩; linarith),
        if_pos ⟨h45, h⟩,
        if_neg (by rintro ⟨x, y⟩; linarith)]
    · rcases lt_or_le a 135 with h | h135
      · rw [if_neg (by rintro ⟨x, y⟩; linarith),
          if_neg (by rintro ⟨x, y⟩; linarith),
          if_neg (by rintro ⟨x, y⟩; linarith),
          if_neg (by rintro ⟨x, y⟩; linarith),
          if_neg (by rintro ⟨x, y⟩; linarith),
          if_pos ⟨h90, h⟩,
          if_neg (by rintro ⟨x, y⟩; linarith),
          if_neg (by rintro ⟨x, y⟩; linarith)]
      · rcases lt_or_le a 180 with h | h180
        · rw [if_neg (by rintro ⟨x, y⟩; linarith),
            if_neg (by rintro ⟨x, y⟩; linarith),
            if_neg (by rintro ⟨x, y⟩; linarith),
            if_neg (by rintro ⟨x, y⟩; linarith),
            if_pos ⟨h135, h⟩,
            if_neg (by rintro ⟨x, y⟩; linarith),
            if_neg (by rintro ⟨x, y⟩; linarith),
            if_neg (by rintro ⟨x, y⟩; linarith)]
        · rcases lt_or_le a 225 with h | h225
          · rw [if_neg (by rintro ⟨x, y⟩; linarith),
              if_neg (by rintro ⟨x, y⟩; linarith),
              if_neg (by rintro ⟨x, y⟩; linarith),
              if_pos ⟨h180, h⟩,
              if_neg (by rintro ⟨x, y⟩; linarith),
              if_neg (by rintro ⟨x, y⟩; linarith),
              if_neg (by rintro ⟨x, y⟩; linarith),
              if_neg (by rintro ⟨x, y⟩; linarith)]
          · rcases lt_or_le a 270 with h | h270
            · rw [if_neg (by rintro ⟨x, y⟩; linarith),
                if_neg (by rintro ⟨x, y⟩; linarith),
                if_pos ⟨h225, h⟩,
                if_neg (by rintro ⟨x, y⟩; linarith),
                if_neg (by rintro ⟨x, y⟩; linarith),
                if_neg (by rintro ⟨x, y⟩; linarith),
                if_neg (by rintro ⟨x, y⟩; linarith),
                if_neg (by rintro ⟨x, y⟩; linarith)]
            · rcases lt_or_le a 315 with h | h315
              · rw [if_neg (by rintro ⟨x, y⟩; linarith),
                  if_pos ⟨h270, h⟩,
                  if_neg (by rintro ⟨x, y⟩; linarith),
                  if_neg (by rintro ⟨x, y⟩; linarith),
                  if_neg (by rintro ⟨x, y⟩; linarith),
                  if_neg (by rintro ⟨x, y⟩; linarith),
                  if_neg (by rintro ⟨x, y⟩; linarith),
                  if_neg (by rintro ⟨x, y⟩; linarith)]
              rw [if_pos ⟨h315, h1⟩,
                if_neg (by rintro ⟨x, y⟩; linarith),
                if_neg (by rintro ⟨x, y⟩; linarith),
                if_neg (by rintro ⟨x, y⟩; linarith),
                if_neg (by rintro ⟨x, y⟩; linarith),
                if_neg (by rintro ⟨x, y⟩; linarith),
                if_neg (by rintro ⟨x, y⟩; linarith),
                if_neg (by rintro ⟨x, y⟩; linarith)]


/-- Witness for C3 at `a = 100`: it lies in exactly one sector. -/
theorem C3_sector_partition_witness :
    sector_ranges.countP (fun p => angleInRange p.1 p.2 (some 100)) = 1 :=
  C3_sector_partition 100 (by norm_num) (by norm_num)

/-- C4: every sector's `percentOfTotalRuns` uses the runs total of the FULL
input event set as denominator (`×100`), and is 0 when that total is 0. -/
theorem C4_pct_of_total_runs (df : Frame) (is_rhb : Bool) (draws : List SectorDraw)
    (d : SectorDraw) (hruns : df.hasRunsScored = true)
    (hr : render_scoring_areas_wheel df is_rhb = some draws) (hd : d ∈ draws) :
    d.stats.pct_runs =
      if 0 < (df.rows.map (·.runs_scored)).sum
      then (d.stats.runs : ℚ) / (((df.rows.map (·.runs_scored)).sum : ℕ) : ℚ) * 100
      else 0 := by
  obtain ⟨rng, _, hf⟩ := render_scoring_mem df is_rhb draws hr d hd
  have hc := renderSector_stats df is_rhb rng d hf
  have hspec := computeSectorStats_spec df rng d.stats hc
  have htot : total_runs_all df = (df.rows.map (·.runs_scored)).sum := by
    simp [total_runs_all, hruns]
  rw [hspec.2.2.2.2.2, htot]

/-- Witness for C4 on the empty table: the first sector's percent is 0. -/
theorem C4_pct_of_total_runs_witness :
    (SectorDraw.mk [90, 45] (some (135/2)) emptyStats).stats.pct_runs =
      if 0 < (frameEmpty.rows.map (·.runs_scored)).sum
      then ((SectorDraw.mk [90, 45] (some (135/2)) emptyStats).stats.runs : ℚ)
            / (((frameEmpty.rows.map (·.runs_scored)).sum : ℕ) : ℚ) * 100
      else 0 :=
  C4_pct_of_total_runs frameEmpty true drawsEmptyRhb _ rfl render_frameEmpty_rhb
    (List.mem_cons_self _ _)

/-- C5 counterexample: on the empty event table (all columns present) the
scoring-areas wheel still draws 16 sector boundary lines and 8 labels,
refuting the claim that no sector lines or labels are drawn. -/
theorem C5_empty_input_counterexample :
    (render_scoring_areas_wheel frameEmpty true).map (fun l => (l.map (·.lines.length)).sum)
        = some 16 ∧
    (render_scoring_areas_wheel frameEmpty true).map (fun l => l.countP (·.labelAngle.isSome))
        = some 8 ∧ ¬ (16 = 0 ∧ 8 = 0) := by
  rw [render_frameEmpty_rhb]
  refine ⟨?_, ?_, by norm_num⟩ <;>
    norm_num [drawsEmptyRhb, emptyStats, List.countP_cons]

/-- C5 amended: on an empty input event collection with the required columns
present, for either handedness, `render_scoring_areas_wheel` does not fail
and every sector's stats are all-zero/placeholder (ballCount 0, runsSum 0,
outsCount 0, average undefined, strikeRate 0, percentOfTotalRuns 0) — but the
8 sector boundary-line pairs and the 8 stats labels are still drawn. -/
theorem C5_empty_input_amended :
    ∀ b : Bool, ∃ draws, render_scoring_areas_wheel frameEmpty b = some draws ∧
      draws.length = 8 ∧
      ∀ d ∈ draws, d.stats = emptyStats ∧ d.lines.length = 2 ∧ d.labelAngle.isSome = true := by
  intro b
  cases b
  · refine ⟨drawsEmptyLhb, render_frameEmpty_lhb, by norm_num [drawsEmptyLhb], ?_⟩
    intro d hd
    simp only [drawsEmptyLhb, List.mem_cons, List.not_mem_nil, or_false] at hd
    rcases hd with rfl | rfl | rfl | rfl | rfl | rfl | rfl | rfl <;> refine ⟨rfl, rfl, rfl⟩
  · refine ⟨drawsEmptyRhb, render_frameEmpty_rhb, by norm_num [drawsEmptyRhb], ?_⟩
    intro d hd
    simp only [drawsEmptyRhb, List.mem_cons, List.not_mem_nil, or_false] at hd
    rcases hd with rfl | rfl | rfl | rfl | rfl | rfl | rfl | rfl <;> refine ⟨rfl, rfl, rfl⟩

/-- C6: in the scoring-areas wheel, a sector with `outs = 0` has an undefined
(placeholder) average — no division is performed — and a sector with positive
outs has average `runs / outs`. -/
theorem C6_average_guard (df : Frame) (is_rhb : Bool) (draws : List SectorDraw)
    (d : SectorDraw)
    (hr : render_scoring_areas_wheel df is_rhb = some draws) (hd : d ∈ draws) :
    (d.stats.outs = 0 → d.stats.average = none) ∧
    (0 < d.stats.outs →
      d.stats.average = some ((d.stats.runs : ℚ) / (d.stats.outs : ℚ))) := by
  obtain ⟨rng, _, hf⟩ := render_scoring_mem df is_rhb draws hr d hd
  have hspec := computeSectorStats_spec df rng d.stats (renderSector_stats df is_rhb rng d hf)
  have havg := hspec.2.2.2.1
  constructor
  · intro h0
    rw [havg, if_neg (by rw [h0]; exact lt_irrefl 0)]
  · intro hpos
    rw [havg, if_pos hpos]

/-- Witness for C6: on `frameFallback` the first sector has one out and
average `6/1 = 6`; on the empty table the first sector's average is the
placeholder. -/
theorem C6_average_guard_witness :
    (SectorDraw.mk [90, 45] (some (135/2)) statsFallback).stats.average
        = some (((SectorDraw.mk [90, 45] (some (135/2)) statsFallback).stats.runs : ℚ)
                  / ((SectorDraw.mk [90, 45] (some (135/2)) statsFallback).stats.outs : ℚ)) ∧
    (SectorDraw.mk [90, 45] (some (135/2)) emptyStats).stats.average = none :=
  ⟨(C6_average_guard frameFallback true drawsFallback _ render_frameFallback_rhb
      (List.mem_cons_self _ _)).2 (by norm_num [statsFallback]),
   (C6_average_guard frameEmpty true drawsEmptyRhb _ render_frameEmpty_rhb
      (List.mem_cons_self _ _)).1 rfl⟩

/-- C7: each sector's outs count uses the explicit `is_out` column when
present (sum of the flags over the sector's rows), and only otherwise falls
back, when a `dismissalType` column is present, to counting the sector's
rows whose `dismissalType` is present and non-empty — an ordered pair of
strategies tried in sequence. -/
theorem C7_outs_policy (df : Frame) (is_rhb : Bool) (draws : List SectorDraw)
    (d : SectorDraw)
    (hr : render_scoring_areas_wheel df is_rhb = some draws) (hd : d ∈ draws) :
    ∃ rng ∈ sector_ranges, renderSector df is_rhb rng = some d ∧
      (df.hasIsOut = true →
        d.stats.outs = (sector_df df rng.1 rng.2).countP (·.is_out)) ∧
      (df.hasIsOut = false → df.hasDismissalType = true →
        d.stats.outs = (sector_df df rng.1 rng.2).countP
          (fun r => r.dismissalType.isSome && !(r.dismissalType == some ""))) := by
  obtain ⟨rng, hrng, hf⟩ := render_scoring_mem df is_rhb draws hr d hd
  have hspec := computeSectorStats_spec df rng d.stats (renderSector_stats df is_rhb rng d hf)
  have houts := hspec.2.2.1
  refine ⟨rng, hrng, hf, ?_, ?_⟩
  · intro hio
    rw [houts]
    by_cases hb : 0 < (sector_df df rng.1 rng.2).length
    · rw [if_pos hb, if_pos hio]
    · rw [if_neg hb]
      have hnil : sector_df df rng.1 rng.2 = [] := List.length_eq_zero.mp (by omega)
      rw [hnil]
      rfl
  · intro hio hdt
    rw [houts]
    by_cases hb : 0 < (sector_df df rng.1 rng.2).length
    · rw [if_pos hb, if_neg (by simp [hio]), if_pos hdt, countP_dismissal_sub]
    · rw [if_neg hb]
      have hnil : sector_df df rng.1 rng.2 = [] := List.length_eq_zero.mp (by omega)
      rw [hnil]
      rfl

/-- Witness for C7 on `frameFallback` (no `is_out` column, `dismissalType`
present): the first sector's outs count is the fallback count. -/
theorem C7_outs_policy_witness :
    ∃ rng ∈ sector_ranges,
      renderSector frameFallback true rng
          = some (SectorDraw.mk [90, 45] (some (135/2)) statsFallback) ∧
      (frameFallback.hasIsOut = true →
        (SectorDraw.mk [90, 45] (some (135/2)) statsFallback).stats.outs
          = (sector_df frameFallback rng.1 rng.2).countP (·.is_out)) ∧
      (frameFallback.hasIsOut = false → frameFallback.hasDismissalType = true →
        (SectorDraw.mk [90, 45] (some (135/2)) statsFallback).stats.outs
          = (sector_df frameFallback rng.1 rng.2).countP
              (fun r => r.dismissalType.isSome && !(r.dismissalType == some ""))) :=
  C7_outs_policy frameFallback true drawsFallback _ render_frameFallback_rhb
    (List.mem_cons_self _ _)

/-- C8: every radial line of the caught-out wheel has radius
`normalized_mag` of the event's magnitude, which equals `min(m,167)/167`;
magnitude 200 gives 1, magnitude 83.5 gives 0.5, and everything at or beyond
167 clamps to exactly 1. -/
theorem C8_magnitude_clamp :
    (∀ (df : Frame) (is_rhb : Bool) (res : CaughtRender),
      render_caught_out_wheel df is_rhb = some res →
      ∀ p ∈ res.lines, ∃ r ∈ caught_df df, ∃ m, rowMagnitude df r = some m ∧
        p.2 = normalized_mag m) ∧
    (∀ m : ℚ, normalized_mag m = min m 167 / 167) ∧
    normalized_mag 200 = 1 ∧
    normalized_mag (83.5 : ℚ) = (0.5 : ℚ) ∧
    (∀ m : ℚ, 167 ≤ m → normalized_mag m = 1) := by
  refine ⟨?_, ?_, ?_, ?_, ?_⟩
  · intro df is_rhb res h p hp
    unfold render_caught_out_wheel at h
    by_cases hcol : df.hasDismissalType = true
    · rw [if_pos hcol] at h
      simp only [Option.some.injEq] at h
      subst h
      obtain ⟨r, hrmem, hfr⟩ := List.mem_filterMap.mp hp
      refine ⟨r, hrmem, ?_⟩
      cases ha : rowAngle df r with
      | none => rw [ha] at hfr; cases hfr
      | some a =>
        cases hm : rowMagnitude df r with
        | none => rw [ha, hm] at hfr; cases hfr
        | some m =>
          rw [ha, hm] at hfr
          simp only [get_adjusted_angle, Option.some.injEq] at hfr
          exact ⟨m, rfl, by rw [← hfr]⟩
    · rw [if_neg hcol] at h
      cases h
  · intro m
    unfold normalized_mag
    by_cases h : 167 ≤ m
    · rw [if_pos h, min_eq_right h]
      norm_num
    · rw [if_neg h, min_eq_left (le_of_not_le h)]
  · norm_num [normalized_mag]
  · norm_num [normalized_mag]
  · intro m h
    unfold normalized_mag
    rw [if_pos h]

/-- Witness for C8: the one line drawn for `frameCaught` has radius
`normalized_mag` of its event's magnitude, and magnitude 200 clamps to 1. -/
theorem C8_magnitude_clamp_witness :
    (∃ r ∈ caught_df frameCaught, ∃ m, rowMagnitude frameCaught r = some m ∧
      (((60 : ℚ), (100 : ℚ)/167)).2 = normalized_mag m) ∧
    normalized_mag 200 = 1 :=
  ⟨C8_magnitude_clamp.1 frameCaught true ⟨[(60, 100/167)], 2⟩ render_frameCaught_rhb
      (60, 100/167) (List.mem_cons_self _ _),
   C8_magnitude_clamp.2.2.2.2 200 (by norm_num)⟩

/-- The stats of the `[0,45)` sector of `frameNoAngle`: the angle-less
6-run row is in no sector, yet inflates the percent denominator. -/
def statsNoAngle : SectorStats := ⟨1, 4, 0, none, 400, 40⟩

/-- The scoring-areas wheel drawn for `frameNoAngle`, right-handed. -/
def drawsNoAngle : List SectorDraw :=
  [⟨[90, 45], some (135/2), statsNoAngle⟩, ⟨[45, 0], some (45/2), emptyStats⟩,
   ⟨[0, 315], some (675/2), emptyStats⟩, ⟨[315, 270], some (585/2), emptyStats⟩,
   ⟨[270, 225], some (495/2), emptyStats⟩, ⟨[225, 180], some (405/2), emptyStats⟩,
   ⟨[180, 135], some (315/2), emptyStats⟩, ⟨[135, 90], some (225/2), emptyStats⟩]

/-- Evaluation: the scoring-areas wheel on `frameNoAngle`, right-handed. -/
theorem render_frameNoAngle_rhb :
    render_scoring_areas_wheel frameNoAngle true = some drawsNoAngle := by
  norm_num [render_scoring_areas_wheel, sector_ranges, optionSequence, renderSector,
    computeSectorStats, sector_df, angleInRange, total_runs_all, frameNoAngle, rowAngle,
    get_scoring_area_display_angle, List.filterMap_cons, qmod360, drawsNoAngle, emptyStats,
    statsNoAngle, List.filter_cons, List.countP_cons]

/-- C9: a row whose `shot_angle` is absent is selected by no sector filter,
so it contributes to no sector's stats, yet its runs still count in the
percent denominator; on `frameNoAngle` the sectors hold 1 ball and 4 runs
in total while the denominator is 10, so the sector percentages sum to
40, strictly less than 100. -/
theorem C9_missing_angle_in_no_sector :
    (∀ (s e : ℚ) (df : Frame) (r : ShotEvent), r.shot_angle = none →
      angleInRange s e (rowAngle df r) = false) ∧
    (render_scoring_areas_wheel frameNoAngle true).map (fun l => (l.map (·.stats.balls)).sum)
        = some 1 ∧
    (render_scoring_areas_wheel frameNoAngle true).map (fun l => (l.map (·.stats.runs)).sum)
        = some 4 ∧
    total_runs_all frameNoAngle = 10 ∧
    (∃ q : ℚ, (render_scoring_areas_wheel frameNoAngle true).map
        (fun l => (l.map (·.stats.pct_runs)).sum) = some q ∧ q < 100) := by
  refine ⟨?_, ?_, ?_, ?_, ⟨40, ?_, by norm_num⟩⟩
  · intro s e df r h
    unfold rowAngle
    split
    · rw [h]
      rfl
    · rfl
  · rw [render_frameNoAngle_rhb]
    norm_num [drawsNoAngle, statsNoAngle, emptyStats]
  · rw [render_frameNoAngle_rhb]
    norm_num [drawsNoAngle, statsNoAngle, emptyStats]
  · norm_num [total_runs_all, frameNoAngle]
  · rw [render_frameNoAngle_rhb]
    norm_num [drawsNoAngle, statsNoAngle, emptyStats]

/-- Witness for C9: the angle-less row of `frameNoAngle` fails the first
sector's filter. -/
theorem C9_missing_angle_in_no_sector_witness :
    angleInRange 0 45 (rowAngle frameNoAngle (ShotEvent.mk 6 none none none false)) = false :=
  C9_missing_angle_in_no_sector.1 0 45 frameNoAngle _ rfl

/-- C10: the caught-out wheel's title counts every caught-dismissal event
(the whole `caught_df` filter), so it is always at least the number of lines
drawn, and on `frameCaught` — where one caught event lacks a magnitude —
it is strictly greater (1 line, title 2). -/
theorem C10_title_counts_all_caught :
    (∀ (df : Frame) (is_rhb : Bool) (res : CaughtRender),
      render_caught_out_wheel df is_rhb = some res →
        res.title_count = (caught_df df).length ∧ res.lines.length ≤ res.title_count) ∧
    (∃ lc tc : ℕ, (render_caught_out_wheel frameCaught true).map
        (fun r => (r.lines.length, r.title_count)) = some (lc, tc) ∧ lc < tc) := by
  constructor
  · intro df is_rhb res h
    unfold render_caught_out_wheel at h
    by_cases hcol : df.hasDismissalType = true
    · rw [if_pos hcol] at h
      simp only [Option.some.injEq] at h
      subst h
      exact ⟨rfl, List.length_filterMap_le _ _⟩
    · rw [if_neg hcol] at h
      cases h
  · refine ⟨1, 2, ?_, by norm_num⟩
    rw [render_frameCaught_rhb]
    rfl

/-- Witness for C10: applied to the concrete `frameCaught` rendering. -/
theorem C10_title_counts_all_caught_witness :
    (CaughtRender.mk [((60 : ℚ), (100 : ℚ)/167)] 2).title_count
        = (caught_df frameCaught).length ∧
    (CaughtRender.mk [((60 : ℚ), (100 : ℚ)/167)] 2).lines.length
        ≤ (CaughtRender.mk [((60 : ℚ), (100 : ℚ)/167)] 2).title_count :=
  C10_title_counts_all_caught.1 frameCaught true _ render_frameCaught_rhb

end WagonWheel

